import Mathlib

/-!
Shallow embedding of the benchmark harness in
`src/scripts/benchmark_combined.py` and of the report stage in
`src/scripts/generate_report.py`.

Python floats are modelled as rationals (`ℚ`); `time.time()` readings are
supplied as explicit clock parameters; the search clients are modelled as
functions returning either a measured latency plus hit count or an error
message.
-/

namespace ElasticBench

/-- Outcome of one search-client call as observed by `run_query`
(`benchmark_combined.py` lines 98-117): either a successful response with its
measured round-trip latency (already converted to ms) and extracted hit count,
or a raised exception carrying a message. -/
inductive ClientResult where
  | ok (latency_ms : ℚ) (hits : Option ℕ)
  | err (msg : String)
deriving DecidableEq, Repr

/-- An outcome record: the dict built by `run_query` (lines 103-109 on success,
112-117 on failure).  A key absent from the Python dict is `none` here. -/
structure OutcomeRecord where
  cluster : String
  query : String
  success : Bool
  latency : Option ℚ
  hits : Option ℕ
  error : Option String
deriving DecidableEq, Repr

/-- Embedding of `run_query` (lines 98-117): builds exactly one outcome record
from the client call's result, the `err` case being the `except` branch that
catches any exception rather than propagating it. -/
def run_query (outcome : ClientResult) (query_name cluster_name : String) :
    OutcomeRecord :=
  match outcome with
  | ClientResult.ok lat hits =>
      { cluster := cluster_name, query := query_name, success := true,
        latency := some lat, hits := hits, error := none }
  | ClientResult.err e =>
      { cluster := cluster_name, query := query_name, success := false,
        latency := none, hits := none, error := some e }

/-- Names of the five queries in the `queries` dict (lines 38-96); the bodies
are opaque backend-specific payloads that the harness logic never inspects. -/
def catalogNames : List String :=
  ["company-name-search", "country-filter-search", "industry-search",
   "complex-search", "industry-aggregation"]

/-- One pass of the `for query_name, query_body in queries.items()` loop inside
`run_benchmark_worker` (lines 124-126): every catalog entry is executed once,
each contributing exactly one appended record, in catalog order. -/
def runCatalogPass (client : String → ClientResult) (catalog : List String)
    (cluster_name : String) : List OutcomeRecord :=
  catalog.map (fun q => run_query (client q) q cluster_name)

/-- Embedding of `run_benchmark_worker` (lines 119-128).  `clock k` is the
`time.time()` reading at the `k`-th evaluation of the `while` condition,
`start_time` the reading taken on line 121, and `client k` the backend's
behaviour during the `k`-th pass.  The Python loop runs until a clock reading
reaches the deadline; `fuel` bounds the number of passes so that the embedding
is total, and claims are stated with enough fuel. -/
def run_benchmark_worker (client : ℕ → String → ClientResult)
    (catalog : List String) (cluster_name : String) (start_time duration : ℚ)
    (clock : ℕ → ℚ) : ℕ → ℕ → List OutcomeRecord
  | 0, _ => []
  | fuel + 1, k =>
      if clock k - start_time < duration then
        runCatalogPass (client k) catalog cluster_name ++
          run_benchmark_worker client catalog cluster_name start_time duration
            clock fuel (k + 1)
      else []

/-- The per-query statistics dict built by `calculate_stats` (lines 163-173). -/
structure QueryStatistics where
  total_requests : ℕ
  successful_requests : ℕ
  error_rate : ℚ
  avg_latency : ℚ
  min_latency : ℚ
  max_latency : ℚ
  p95_latency : ℚ
  p99_latency : ℚ
  requests_per_second : ℚ
deriving DecidableEq, Repr

/-- Records of one cluster: the comprehension on line 155 of
`benchmark_combined.py`. -/
def clusterResults (results : List OutcomeRecord) (cluster_name : String) :
    List OutcomeRecord :=
  results.filter (fun r => r.cluster == cluster_name)

/-- Records of one cluster and one query: line 158. -/
def queryRecords (results : List OutcomeRecord) (cluster_name query_name : String) :
    List OutcomeRecord :=
  (clusterResults results cluster_name).filter (fun r => r.query == query_name)

/-- The successful records among those of one cluster and query: line 159. -/
def successfulRecords (results : List OutcomeRecord) (cluster_name query_name : String) :
    List OutcomeRecord :=
  (queryRecords results cluster_name query_name).filter (fun r => r.success)

/-- Latencies of the successful records: line 162.  Every record built by
`run_query` with `success = true` carries a latency, so the `getD 0` default
never fires on program-produced records (in Python the key access would raise
otherwise). -/
def successLatencies (results : List OutcomeRecord) (cluster_name query_name : String) :
    List ℚ :=
  (successfulRecords results cluster_name query_name).map (fun r => r.latency.getD 0)

/-- Ascending sort: the embedding of Python's `sorted` on lines 170-171.  Over
a linear order any comparison sort computes the same ascending list;
`insertionSort` is chosen because it is structurally recursive, hence
kernel-computable on concrete inputs. -/
def sortedAsc (l : List ℚ) : List ℚ :=
  List.insertionSort (· ≤ ·) l

/-- The statistics entry produced for one `query_name` by the body of the loop
in `calculate_stats` (lines 157-173); `none` when the `if successful_results:`
guard on line 161 fails.  Python's percentile index `int(len(latencies) * 0.95)`
is `len * 95 / 100` in exact arithmetic, and IEEE double rounding never changes
the truncated value (the product `n * 0.95` lies within half an ulp of an
integer only when `20 ∣ n`, and there it rounds to exactly that integer);
likewise for `0.99` with `100 ∣ n`. -/
def statsValue (results : List OutcomeRecord) (cluster_name : String) (duration : ℚ)
    (query_name : String) : QueryStatistics :=
  let query_results := queryRecords results cluster_name query_name
  let successful_results := successfulRecords results cluster_name query_name
  let latencies := successLatencies results cluster_name query_name
  { total_requests := query_results.length
    successful_requests := successful_results.length
    error_rate := ((query_results.length : ℚ) - (successful_results.length : ℚ)) /
      (query_results.length : ℚ) * 100
    avg_latency := latencies.sum / (latencies.length : ℚ)
    min_latency := latencies.min?.getD 0
    max_latency := latencies.max?.getD 0
    p95_latency := (sortedAsc latencies).getD (latencies.length * 95 / 100) 0
    p99_latency := (sortedAsc latencies).getD (latencies.length * 99 / 100) 0
    requests_per_second := (successful_results.length : ℚ) / duration }

/-- The optional map entry for one `query_name`: the `if successful_results:`
guard on line 161 around the dict assignment on line 163. -/
def statsFor (results : List OutcomeRecord) (cluster_name : String) (duration : ℚ)
    (query_name : String) : Option (String × QueryStatistics) :=
  if (successfulRecords results cluster_name query_name).isEmpty then none
  else some (query_name, statsValue results cluster_name duration query_name)

/-- Embedding of `calculate_stats` (lines 153-174) as an association list keyed
by query name, iterating `queries.keys()` exactly as the Python loop does. -/
def calculate_stats (results : List OutcomeRecord) (cluster_name : String)
    (queryNames : List String) (duration : ℚ) : List (String × QueryStatistics) :=
  queryNames.filterMap (statsFor results cluster_name duration)

/-- The three status markers of `generate_report.py` (lines 16-18): `green` is
the 🟢 emitted when the Elasticsearch value is favorable, `red` the 🔴 emitted
when the OpenSearch value is favorable, `neutral` the ⚪. -/
inductive Indicator where
  | green
  | red
  | neutral
deriving DecidableEq, Repr

/-- Embedding of `get_color_code` (`generate_report.py` lines 20-25). -/
def get_color_code (elasticsearch_value opensearch_value : ℚ)
    (lower_is_better : Bool) : Indicator :=
  if elasticsearch_value < opensearch_value then
    (if lower_is_better then Indicator.green else Indicator.red)
  else if opensearch_value < elasticsearch_value then
    (if lower_is_better then Indicator.red else Indicator.green)
  else Indicator.neutral

/-- One row of the report's metrics table: metric label, cluster column, the
numeric value (formatting to text is out of scope), unit, and status marker. -/
structure Row where
  metric : String
  cluster : String
  value : ℚ
  unit : String
  status : Indicator
deriving DecidableEq, Repr

/-- The seven Elasticsearch rows appended for a query present in the
Elasticsearch statistics (`generate_report.py` lines 34-43); all carry the
neutral marker. -/
def essRowsFor (query_name : String) (m : QueryStatistics) : List Row :=
  [ { metric := query_name ++ " - Average Latency", cluster := "Elasticsearch",
      value := m.avg_latency, unit := "ms", status := Indicator.neutral },
    { metric := query_name ++ " - Minimum Latency", cluster := "Elasticsearch",
      value := m.min_latency, unit := "ms", status := Indicator.neutral },
    { metric := query_name ++ " - Maximum Latency", cluster := "Elasticsearch",
      value := m.max_latency, unit := "ms", status := Indicator.neutral },
    { metric := query_name ++ " - 95th Percentile Latency", cluster := "Elasticsearch",
      value := m.p95_latency, unit := "ms", status := Indicator.neutral },
    { metric := query_name ++ " - 99th Percentile Latency", cluster := "Elasticsearch",
      value := m.p99_latency, unit := "ms", status := Indicator.neutral },
    { metric := query_name ++ " - Requests per Second", cluster := "Elasticsearch",
      value := m.requests_per_second, unit := "ops/sec", status := Indicator.neutral },
    { metric := query_name ++ " - Error Rate", cluster := "Elasticsearch",
      value := m.error_rate, unit := "%", status := Indicator.neutral } ]

/-- The seven OpenSearch rows appended for a query present in both backends'
statistics (`generate_report.py` lines 49-64), each colored by comparison with
the Elasticsearch value; `lower_is_better` defaults to true and is passed as
`False` only for requests per second (line 61). -/
def awsRowsFor (query_name : String) (em am : QueryStatistics) : List Row :=
  [ { metric := query_name ++ " - Average Latency", cluster := "OpenSearch",
      value := am.avg_latency, unit := "ms",
      status := get_color_code em.avg_latency am.avg_latency true },
    { metric := query_name ++ " - Minimum Latency", cluster := "OpenSearch",
      value := am.min_latency, unit := "ms",
      status := get_color_code em.min_latency am.min_latency true },
    { metric := query_name ++ " - Maximum Latency", cluster := "OpenSearch",
      value := am.max_latency, unit := "ms",
      status := get_color_code em.max_latency am.max_latency true },
    { metric := query_name ++ " - 95th Percentile Latency", cluster := "OpenSearch",
      value := am.p95_latency, unit := "ms",
      status := get_color_code em.p95_latency am.p95_latency true },
    { metric := query_name ++ " - 99th Percentile Latency", cluster := "OpenSearch",
      value := am.p99_latency, unit := "ms",
      status := get_color_code em.p99_latency am.p99_latency true },
    { metric := query_name ++ " - Requests per Second", cluster := "OpenSearch",
      value := am.requests_per_second, unit := "ops/sec",
      status := get_color_code em.requests_per_second am.requests_per_second false },
    { metric := query_name ++ " - Error Rate", cluster := "OpenSearch",
      value := am.error_rate, unit := "%",
      status := get_color_code em.error_rate am.error_rate true } ]

/-- The rows appended for one `query_name` by the loop body on lines 31-64 of
`generate_report.py`: Elasticsearch rows only when `ess_metrics` is non-empty
(line 34), OpenSearch rows only when `aws_metrics and ess_metrics` are both
non-empty (line 47). -/
def rowsForQuery (ess aws : List (String × QueryStatistics)) (query_name : String) :
    List Row :=
  (match ess.lookup query_name with
   | some em => essRowsFor query_name em
   | none => []) ++
  (match aws.lookup query_name, ess.lookup query_name with
   | some am, some em => awsRowsFor query_name em am
   | _, _ => [])

/-- The iteration domain `set(elasticsearch_stats.keys()) | set(opensearch_stats.keys())`
of line 31; Python's set iteration order is arbitrary, and only membership in
the emitted row collection is ever claimed, so first-occurrence order is used. -/
def unionKeys (ess aws : List (String × QueryStatistics)) : List String :=
  ((ess.map Prod.fst) ++ (aws.map Prod.fst)).dedup

/-- All per-query rows of the metrics table (`generate_report.py` lines 28-64). -/
def queryMetricRows (ess aws : List (String × QueryStatistics)) : List Row :=
  (unionKeys ess aws).flatMap (rowsForQuery ess aws)

/-- Summary row value `sum(metrics['total_requests'] for ...)` of lines 67/72. -/
def summaryTotalRequests (stats : List (String × QueryStatistics)) : ℕ :=
  (stats.map (fun p => p.2.total_requests)).sum

/-- Summary row value `sum(metrics['successful_requests'] for ...)` of lines 68/73. -/
def summarySuccessfulRequests (stats : List (String × QueryStatistics)) : ℕ :=
  (stats.map (fun p => p.2.successful_requests)).sum

/-- Summary row value `sum(metrics['error_rate'] for ...) / len(...)` of lines
69/74: the unweighted mean of the per-query error rates. -/
def summaryOverallErrorRate (stats : List (String × QueryStatistics)) : ℚ :=
  (stats.map (fun p => p.2.error_rate)).sum / (stats.length : ℚ)

/-- Summary row value `sum(metrics['requests_per_second'] for ...)` of lines
70/75: the sum of the per-query throughputs. -/
def summaryAvgRequestsPerSecond (stats : List (String × QueryStatistics)) : ℚ :=
  (stats.map (fun p => p.2.requests_per_second)).sum

/-- A global error rate recomputed from raw counts — the aggregation the code
does NOT perform for its summary row, stated here so the two can be compared. -/
def globalErrorRateFromCounts (stats : List (String × QueryStatistics)) : ℚ :=
  ((summaryTotalRequests stats : ℚ) - (summarySuccessfulRequests stats : ℚ)) /
    (summaryTotalRequests stats : ℚ) * 100

/-- The spec's median of a latency sample: the element at index `⌊0.5 · n⌋`
(which is `n / 2`) of the ascending-sorted sample. -/
def medianOf (l : List ℚ) : ℚ :=
  (sortedAsc l).getD (l.length / 2) 0

/-- Concrete outcome collection used to instantiate theorems: one success and
one failure for "company-name-search" on the Elasticsearch cluster. -/
def wrecsMixed : List OutcomeRecord :=
  [run_query (ClientResult.ok 7 none) "company-name-search" "Elasticsearch",
   run_query (ClientResult.err "boom") "company-name-search" "Elasticsearch"]

/-- The statistics entry `calculate_stats` produces for `wrecsMixed` at
duration 20. -/
def wstatMixed : QueryStatistics :=
  { total_requests := 2, successful_requests := 1, error_rate := 50,
    avg_latency := 7, min_latency := 7, max_latency := 7,
    p95_latency := 7, p99_latency := 7, requests_per_second := 1 / 20 }

/-- Concrete worker-1 outcome collection for the merge scenario. -/
def wrecsMergeA : List OutcomeRecord :=
  [run_query (ClientResult.ok 4 none) "company-name-search" "OpenSearch"]

/-- Concrete worker-2 outcome collection for the merge scenario. -/
def wrecsMergeB : List OutcomeRecord :=
  [run_query (ClientResult.err "reset") "company-name-search" "OpenSearch"]

/-- The statistics entry `calculate_stats` produces for the merged collection
`wrecsMergeA ++ wrecsMergeB` at duration 20. -/
def wstatMerge : QueryStatistics :=
  { total_requests := 2, successful_requests := 1, error_rate := 50,
    avg_latency := 4, min_latency := 4, max_latency := 4,
    p95_latency := 4, p99_latency := 4, requests_per_second := 1 / 20 }

/-- Concrete outcome collection with two successes (latencies 5 and 3) for
"company-name-search" on Elasticsearch. -/
def wrecsTwo : List OutcomeRecord :=
  [run_query (ClientResult.ok 5 (some 1)) "company-name-search" "Elasticsearch",
   run_query (ClientResult.ok 3 (some 1)) "company-name-search" "Elasticsearch"]

/-- The statistics entry `calculate_stats` produces for `wrecsTwo` at
duration 20. -/
def wstatTwo : QueryStatistics :=
  { total_requests := 2, successful_requests := 2, error_rate := 0,
    avg_latency := 4, min_latency := 3, max_latency := 5,
    p95_latency := 5, p99_latency := 5, requests_per_second := 1 / 10 }

/-- A concrete statistics entry for report-stage instantiations; the field
values are arbitrary. -/
def wstatReport : QueryStatistics :=
  { total_requests := 10, successful_requests := 9, error_rate := 10,
    avg_latency := 12, min_latency := 2, max_latency := 30,
    p95_latency := 25, p99_latency := 30, requests_per_second := 9 / 20 }

/-- A concrete per-backend statistics map on which the unweighted mean of the
per-query error rates (100/3) differs from the error rate recomputed from the
raw counts (50): query "a" has 1/1 successes, query "b" has 1/3. -/
def wstatsSummary : List (String × QueryStatistics) :=
  [("a", { total_requests := 1, successful_requests := 1, error_rate := 0,
           avg_latency := 1, min_latency := 1, max_latency := 1,
           p95_latency := 1, p99_latency := 1, requests_per_second := 1 / 20 }),
   ("b", { total_requests := 3, successful_requests := 1, error_rate := 200 / 3,
           avg_latency := 2, min_latency := 2, max_latency := 2,
           p95_latency := 2, p99_latency := 2, requests_per_second := 1 / 20 })]

theorem statsFor_eq_some {results : List OutcomeRecord} {cluster_name : String}
    {duration : ℚ} {q : String} {p : String × QueryStatistics}
    (h : statsFor results cluster_name duration q = some p) :
    successfulRecords results cluster_name q ≠ [] ∧
      p = (q, statsValue results cluster_name duration q) := by
  rw [statsFor] at h
  split at h
  · exact absurd h (by simp)
  · rename_i hne
    exact ⟨by simpa using hne, (Option.some.inj h).symm⟩

theorem lookup_calculate_stats {results : List OutcomeRecord} {cluster_name : String}
    {duration : ℚ} {q : String} {st : QueryStatistics} :
    ∀ {queryNames : List String},
      (calculate_stats results cluster_name queryNames duration).lookup q = some st →
      statsFor results cluster_name duration q = some (q, st) := by
  intro queryNames
  induction queryNames with
  | nil => intro h; cases h
  | cons a tl ih =>
    intro h
    rw [calculate_stats, List.filterMap_cons] at h
    cases hsa : statsFor results cluster_name duration a with
    | none =>
      rw [hsa] at h
      exact ih h
    | some p =>
      rw [hsa] at h
      obtain ⟨-, rfl⟩ := statsFor_eq_some hsa
      rw [List.lookup_cons] at h
      by_cases hqa : q = a
      · subst hqa
        simp only [beq_self_eq_true, Option.some.injEq] at h
        rw [hsa, h]
      · have hne : (q == a) = false := by simpa using hqa
        simp only [hne] at h
        exact ih h

theorem lookup_calculate_stats_none {results : List OutcomeRecord} {cluster_name : String}
    {duration : ℚ} {q : String}
    (h : statsFor results cluster_name duration q = none) :
    ∀ {queryNames : List String},
      (calculate_stats results cluster_name queryNames duration).lookup q = none := by
  intro queryNames
  induction queryNames with
  | nil => rfl
  | cons a tl ih =>
    rw [calculate_stats, List.filterMap_cons]
    cases hsa : statsFor results cluster_name duration a with
    | none => exact ih
    | some p =>
      obtain ⟨-, rfl⟩ := statsFor_eq_some hsa
      rw [List.lookup_cons]
      have hqa : ¬ q = a := by
        rintro rfl
        rw [h] at hsa
        cases hsa
      have hne : (q == a) = false := by simpa using hqa
      simp only [hne]
      exact ih

theorem lookup_eq_statsValue {results : List OutcomeRecord} {cluster_name : String}
    {duration : ℚ} {q : String} {st : QueryStatistics} {queryNames : List String}
    (h : (calculate_stats results cluster_name queryNames duration).lookup q = some st) :
    successfulRecords results cluster_name q ≠ [] ∧
      st = statsValue results cluster_name duration q := by
  obtain ⟨hne, hp⟩ := statsFor_eq_some (lookup_calculate_stats h)
  exact ⟨hne, congrArg Prod.snd hp⟩

theorem sortedAsc_length (l : List ℚ) : (sortedAsc l).length = l.length :=
  (List.perm_insertionSort _ l).length_eq

theorem sortedAsc_sorted (l : List ℚ) : List.Sorted (· ≤ ·) (sortedAsc l) :=
  List.sorted_insertionSort _ l

theorem mem_sortedAsc {l : List ℚ} {a : ℚ} : a ∈ sortedAsc l ↔ a ∈ l :=
  List.mem_insertionSort _

theorem sortedAsc_getD_mono {l : List ℚ} {i j : ℕ} (hij : i ≤ j) (hj : j < l.length) :
    (sortedAsc l).getD i 0 ≤ (sortedAsc l).getD j 0 := by
  have hj' : j < (sortedAsc l).length := (sortedAsc_length l).symm ▸ hj
  have hi' : i < (sortedAsc l).length := lt_of_le_of_lt hij hj'
  have hrel := (sortedAsc_sorted l).rel_get_of_le
    (a := ⟨i, hi'⟩) (b := ⟨j, hj'⟩) (Fin.mk_le_mk.mpr hij)
  rw [List.getD_eq_getElem?_getD, List.getD_eq_getElem?_getD,
    List.getElem?_eq_getElem hi', List.getElem?_eq_getElem hj']
  simpa [List.get_eq_getElem] using hrel

theorem sortedAsc_getD_mem {l : List ℚ} {i : ℕ} (hi : i < l.length) :
    (sortedAsc l).getD i 0 ∈ l := by
  have hi' : i < (sortedAsc l).length := (sortedAsc_length l).symm ▸ hi
  rw [List.getD_eq_getElem?_getD, List.getElem?_eq_getElem hi']
  exact mem_sortedAsc.mp (List.getElem_mem hi')

theorem min?_getD_le_of_mem {l : List ℚ} {b : ℚ} (hb : b ∈ l) :
    l.min?.getD 0 ≤ b := by
  have : Std.Antisymm ((· : ℚ) ≤ ·) := ⟨fun h₁ h₂ => le_antisymm h₁ h₂⟩
  cases hm : l.min? with
  | none =>
    rw [List.min?_eq_none_iff] at hm
    subst hm
    cases hb
  | some m =>
    have := (List.min?_eq_some_iff (fun a => le_refl a) (fun a b => min_choice a b)
      (fun _ _ _ => le_min_iff)).mp hm
    simpa using this.2 b hb

theorem max?_getD_eq_sortedAsc_last {l : List ℚ} (hne : l ≠ []) :
    l.max?.getD 0 = (sortedAsc l).getD (l.length - 1) 0 := by
  have : Std.Antisymm ((· : ℚ) ≤ ·) := ⟨fun h₁ h₂ => le_antisymm h₁ h₂⟩
  have hn : 0 < l.length := List.length_pos.mpr hne
  have hlast : l.length - 1 < l.length := Nat.sub_lt hn Nat.one_pos
  have hmem : (sortedAsc l).getD (l.length - 1) 0 ∈ l := sortedAsc_getD_mem hlast
  have hub : ∀ b ∈ l, b ≤ (sortedAsc l).getD (l.length - 1) 0 := by
    intro b hb
    have hb' : b ∈ sortedAsc l := mem_sortedAsc.mpr hb
    obtain ⟨j, hj, hbj⟩ := List.getElem_of_mem hb'
    have hj' : j < l.length := (sortedAsc_length l) ▸ hj
    have hjle : j ≤ l.length - 1 := Nat.le_sub_one_of_lt hj'
    have := sortedAsc_getD_mono hjle hlast
    rw [List.getD_eq_getElem?_getD (n := j), List.getElem?_eq_getElem hj,
      Option.getD_some, hbj] at this
    exact this
  have heq : l.max? = some ((sortedAsc l).getD (l.length - 1) 0) :=
    (List.max?_eq_some_iff (fun a => le_refl a) (fun a b => max_choice a b)
      (fun _ _ _ => max_le_iff)).mpr ⟨hmem, hub⟩
  rw [heq, Option.getD_some]

/-- Claim C1, counterexample: with a single failing record for
"company-name-search" (total_requests = 1 > 0, successful_requests = 0), the
aggregator's output contains NO entry for that query at all, so in particular
no entry with error_rate_pct == 100: the `if successful_results:` guard omits
the query entirely. -/
theorem claim_C1_counterexample :
    ¬ ∃ st : QueryStatistics,
        (calculate_stats
            [run_query (ClientResult.err "ConnectionError") "company-name-search"
              "Elasticsearch"]
            "Elasticsearch" catalogNames 20).lookup "company-name-search" = some st ∧
          st.error_rate = 100 := by
  have hnone : (calculate_stats
      [run_query (ClientResult.err "ConnectionError") "company-name-search"
        "Elasticsearch"]
      "Elasticsearch" catalogNames 20).lookup "company-name-search" = none := by
    norm_num [calculate_stats, statsFor, statsValue, queryRecords, clusterResults,
      successfulRecords, successLatencies, sortedAsc, catalogNames, run_query,
      List.lookup_cons, List.filterMap_cons]
  rintro ⟨st, hst, -⟩
  rw [hnone] at hst
  cases hst

/-- Claim C1 (amended): for a query all of whose outcome records for the given
cluster are failures, the Statistics Aggregator's output omits that query
entirely — it has no entry for it, hence neither an error_rate_pct field nor
any latency field. -/
theorem claim_C1_amended (results : List OutcomeRecord) (cluster_name : String)
    (queryNames : List String) (duration : ℚ) (q : String)
    (hfail : ∀ r ∈ results, r.cluster = cluster_name → r.query = q →
      r.success = false) :
    (calculate_stats results cluster_name queryNames duration).lookup q = none := by
  have hsucc : successfulRecords results cluster_name q = [] := by
    rw [successfulRecords, List.filter_eq_nil_iff]
    intro r hr
    rw [queryRecords, List.mem_filter] at hr
    obtain ⟨hrc, hq⟩ := hr
    rw [clusterResults, List.mem_filter] at hrc
    obtain ⟨hrm, hc⟩ := hrc
    have := hfail r hrm (by simpa using hc) (by simpa using hq)
    simp [this]
  exact lookup_calculate_stats_none (by rw [statsFor, if_pos (by simp [hsucc])])

/-- Claim C1, witness: the amended theorem applied to a backend whose adapter
always fails, on the query "industry-search". -/
theorem claim_C1_witness :
    (calculate_stats
        [run_query (ClientResult.err "timeout") "industry-search" "OpenSearch",
         run_query (ClientResult.err "timeout") "complex-search" "OpenSearch"]
        "OpenSearch" catalogNames 20).lookup "industry-search" = none :=
  claim_C1_amended _ _ _ _ _ (by decide)

/-- Claim C2, counterexample: with duration = 0 and a clock that has not moved
since the worker's start, the Load Worker executes NO catalog pass at all: the
`while time.time() - start_time < TEST_DURATION` condition is checked before
the first pass and is already false, so 0 records are produced, not
len(catalog) = 5. -/
theorem claim_C2_counterexample :
    run_benchmark_worker (fun _ _ => ClientResult.ok 1 none) catalogNames
        "Elasticsearch" 0 0 (fun _ => 0) 10 0 = [] ∧
      catalogNames.length = 5 := by
  constructor
  · norm_num [run_benchmark_worker]
  · rfl

/-- Claim C2 (amended): for every backend adapter and query catalog, a Load
Worker given duration = 0 and a clock that does not run backwards executes
zero catalog passes and produces zero outcome records — the deadline is
checked before each pass, so there is no at-least-one-pass guarantee. -/
theorem claim_C2_amended (client : ℕ → String → ClientResult)
    (catalog : List String) (cluster_name : String) (start_time : ℚ)
    (clock : ℕ → ℚ) (fuel k : ℕ) (hclock : start_time ≤ clock k) :
    run_benchmark_worker client catalog cluster_name start_time 0 clock fuel k
      = [] := by
  cases fuel with
  | zero => rfl
  | succ n =>
    have hnot : ¬ (clock k - start_time < 0) := by linarith
    simp only [run_benchmark_worker, if_neg hnot]

/-- Claim C2, witness: the amended theorem at a concrete worker whose clock
stands still at the start time. -/
theorem claim_C2_witness :
    run_benchmark_worker (fun _ _ => ClientResult.err "down") catalogNames
      "OpenSearch" 5 0 (fun _ => 5) 3 0 = [] :=
  claim_C2_amended _ _ _ _ _ _ _ (by norm_num)

/-- Claim C8: for every adapter outcome, a single query execution returns
exactly one outcome record and never propagates the failure.  The four parts:
a failing call yields the failure record carrying the error's textual
description with success == false; a successful call yields the success
record; a catalog pass produces exactly one record per catalog entry, whatever
the outcomes (no retry, no abort); and the record at position i of a pass is
exactly the record of the i-th query — the worker continued to the next query
after any failure. -/
theorem claim_C8 :
    (∀ (e : String) (qn cn : String),
        run_query (ClientResult.err e) qn cn =
          { cluster := cn, query := qn, success := false, latency := none,
            hits := none, error := some e }) ∧
    (∀ (lat : ℚ) (hits : Option ℕ) (qn cn : String),
        run_query (ClientResult.ok lat hits) qn cn =
          { cluster := cn, query := qn, success := true, latency := some lat,
            hits := hits, error := none }) ∧
    (∀ (client : String → ClientResult) (catalog : List String) (cn : String),
        (runCatalogPass client catalog cn).length = catalog.length) ∧
    (∀ (client : String → ClientResult) (catalog : List String) (cn : String)
        (i : ℕ) (d : OutcomeRecord) (s : String), i < catalog.length →
        (runCatalogPass client catalog cn).getD i d =
          run_query (client (catalog.getD i s)) (catalog.getD i s) cn) := by
  refine ⟨fun _ _ _ => rfl, fun _ _ _ _ => rfl, fun _ catalog _ => ?_, ?_⟩
  · simp [runCatalogPass]
  · intro client catalog cn i d s hi
    simp [runCatalogPass, List.getD_eq_getElem?_getD, List.getElem?_eq_getElem hi]

/-- Claim C8, witness: the pass-shape part of the theorem at a concrete
always-failing adapter and the real catalog, position 1. -/
theorem claim_C8_witness :
    (1 < catalogNames.length) ∧
    (runCatalogPass (fun _ => ClientResult.err "timeout") catalogNames
        "OpenSearch").getD 1 (run_query (ClientResult.err "x") "q" "c") =
      run_query (ClientResult.err "timeout") (catalogNames.getD 1 "")
        "OpenSearch" :=
  ⟨by decide,
    claim_C8.2.2.2 (fun _ => ClientResult.err "timeout") catalogNames "OpenSearch"
      1 (run_query (ClientResult.err "x") "q" "c") "" (by decide)⟩

/-- Claim C9: for every collection of outcome records and every query present
in the aggregator's output, the computed error_rate_pct lies in [0, 100], and
it equals 0 iff all records for that query (on that cluster) succeeded. -/
theorem claim_C9 (results : List OutcomeRecord) (cluster_name : String)
    (queryNames : List String) (duration : ℚ) (q : String) (st : QueryStatistics)
    (h : (calculate_stats results cluster_name queryNames duration).lookup q
      = some st) :
    0 ≤ st.error_rate ∧ st.error_rate ≤ 100 ∧
      (st.error_rate = 0 ↔
        ∀ r ∈ queryRecords results cluster_name q, r.success = true) := by
  obtain ⟨hne, rfl⟩ := lookup_eq_statsValue h
  have hs1 : 0 < (successfulRecords results cluster_name q).length :=
    List.length_pos.mpr hne
  have hst : (successfulRecords results cluster_name q).length ≤
      (queryRecords results cluster_name q).length := List.length_filter_le _ _
  simp only [statsValue]
  set t := (queryRecords results cluster_name q).length with ht
  set s := (successfulRecords results cluster_name q).length with hs
  have htq : (0:ℚ) < (t:ℚ) := by exact_mod_cast lt_of_lt_of_le hs1 hst
  have hsq : (s:ℚ) ≤ (t:ℚ) := by exact_mod_cast hst
  have hs0 : (0:ℚ) ≤ (s:ℚ) := by positivity
  have hiff : s = t ↔ ∀ r ∈ queryRecords results cluster_name q,
      r.success = true := by
    rw [hs, ht, successfulRecords]
    constructor
    · intro hlen r hr
      simpa using List.filter_length_eq_length.mp hlen r hr
    · intro hall
      exact List.filter_length_eq_length.mpr (fun a ha => by simpa using hall a ha)
  refine ⟨?_, ?_, ?_⟩
  · have : (0:ℚ) ≤ (t:ℚ) - (s:ℚ) := by linarith
    positivity
  · have h1 : ((t:ℚ) - (s:ℚ)) / (t:ℚ) ≤ 1 := by
      rw [div_le_one htq]
      linarith
    calc ((t:ℚ) - (s:ℚ)) / (t:ℚ) * 100 ≤ 1 * 100 := by
          exact mul_le_mul_of_nonneg_right h1 (by norm_num)
      _ = 100 := by norm_num
  · constructor
    · intro h0
      have h1 : ((t:ℚ) - (s:ℚ)) / (t:ℚ) = 0 := by
        rcases mul_eq_zero.mp h0 with h1 | h1
        · exact h1
        · norm_num at h1
      rw [div_eq_zero_iff] at h1
      rcases h1 with h1 | h1
      · have : (s:ℚ) = (t:ℚ) := by linarith
        exact hiff.mp (by exact_mod_cast this)
      · exact absurd h1 (ne_of_gt htq)
    · intro hall
      have hts : s = t := hiff.mpr hall
      rw [hts]
      simp

/-- Claim C9, witness: the theorem applied to one success and one failure for
"company-name-search", whose computed error rate is 50. -/
theorem claim_C9_witness :
    0 ≤ wstatMixed.error_rate ∧ wstatMixed.error_rate ≤ 100 ∧
      (wstatMixed.error_rate = 0 ↔
        ∀ r ∈ queryRecords wrecsMixed "Elasticsearch" "company-name-search",
          r.success = true) :=
  claim_C9 wrecsMixed "Elasticsearch" catalogNames 20 "company-name-search" wstatMixed
    (by norm_num [wrecsMixed, wstatMixed, calculate_stats, statsFor, statsValue,
      queryRecords, clusterResults, successfulRecords, successLatencies, sortedAsc,
      catalogNames, run_query, List.lookup_cons, List.filterMap_cons, List.min?,
      List.max?, List.foldl])

/-- Claim C10: every entry present in the map returned by the Statistics
Aggregator satisfies 1 ≤ successful_requests ≤ total_requests, its latency
sample is non-empty, both percentile indices are within the bounds of the
sorted sample (so neither list index can be out of range), and the error-rate
denominator total_requests is nonzero. -/
theorem claim_C10 (results : List OutcomeRecord) (cluster_name : String)
    (queryNames : List String) (duration : ℚ) (q : String) (st : QueryStatistics)
    (h : (calculate_stats results cluster_name queryNames duration).lookup q
      = some st) :
    1 ≤ st.successful_requests ∧ st.successful_requests ≤ st.total_requests ∧
      0 < (successLatencies results cluster_name q).length ∧
      (successLatencies results cluster_name q).length * 95 / 100 <
        (sortedAsc (successLatencies results cluster_name q)).length ∧
      (successLatencies results cluster_name q).length * 99 / 100 <
        (sortedAsc (successLatencies results cluster_name q)).length ∧
      ((st.total_requests : ℚ) ≠ 0) := by
  obtain ⟨hne, rfl⟩ := lookup_eq_statsValue h
  have hs1 : 0 < (successfulRecords results cluster_name q).length :=
    List.length_pos.mpr hne
  have hst : (successfulRecords results cluster_name q).length ≤
      (queryRecords results cluster_name q).length := List.length_filter_le _ _
  have hlat : (successLatencies results cluster_name q).length =
      (successfulRecords results cluster_name q).length := by
    rw [successLatencies, List.length_map]
  simp only [statsValue]
  refine ⟨hs1, hst, by omega, ?_, ?_, ?_⟩
  · rw [sortedAsc_length]; omega
  · rw [sortedAsc_length]; omega
  · exact_mod_cast Nat.pos_iff_ne_zero.mp (lt_of_lt_of_le hs1 hst)

/-- Claim C10, witness: the theorem at the mixed success/failure collection. -/
theorem claim_C10_witness :
    1 ≤ wstatMixed.successful_requests ∧
      wstatMixed.successful_requests ≤ wstatMixed.total_requests ∧
      0 < (successLatencies wrecsMixed "Elasticsearch" "company-name-search").length ∧
      (successLatencies wrecsMixed "Elasticsearch" "company-name-search").length
          * 95 / 100 <
        (sortedAsc (successLatencies wrecsMixed "Elasticsearch"
          "company-name-search")).length ∧
      (successLatencies wrecsMixed "Elasticsearch" "company-name-search").length
          * 99 / 100 <
        (sortedAsc (successLatencies wrecsMixed "Elasticsearch"
          "company-name-search")).length ∧
      ((wstatMixed.total_requests : ℚ) ≠ 0) :=
  claim_C10 wrecsMixed "Elasticsearch" catalogNames 20 "company-name-search" wstatMixed
    (by norm_num [wrecsMixed, wstatMixed, calculate_stats, statsFor, statsValue,
      queryRecords, clusterResults, successfulRecords, successLatencies, sortedAsc,
      catalogNames, run_query, List.lookup_cons, List.filterMap_cons, List.min?,
      List.max?, List.foldl])

/-- Claim C7: aggregating the concatenation of two workers' outcome-record
sequences yields, for each query present in the output, total_requests equal
to the sum of the counts of that query's records (for the aggregated cluster)
in each sequence — no records are dropped or duplicated by the merge. -/
theorem claim_C7 (r1 r2 : List OutcomeRecord) (cluster_name : String)
    (queryNames : List String) (duration : ℚ) (q : String) (st : QueryStatistics)
    (h : (calculate_stats (r1 ++ r2) cluster_name queryNames duration).lookup q
      = some st) :
    st.total_requests =
      (queryRecords r1 cluster_name q).length +
        (queryRecords r2 cluster_name q).length := by
  obtain ⟨-, rfl⟩ := lookup_eq_statsValue h
  simp only [statsValue]
  rw [queryRecords, clusterResults, List.filter_append, List.filter_append,
    List.length_append]
  rfl

/-- Claim C7, witness: merging a one-success worker sequence with a one-failure
worker sequence for "company-name-search" gives total_requests = 1 + 1. -/
theorem claim_C7_witness :
    wstatMerge.total_requests =
      (queryRecords wrecsMergeA "OpenSearch" "company-name-search").length +
        (queryRecords wrecsMergeB "OpenSearch" "company-name-search").length :=
  claim_C7 wrecsMergeA wrecsMergeB "OpenSearch" catalogNames 20
    "company-name-search" wstatMerge
    (by norm_num [wrecsMergeA, wrecsMergeB, wstatMerge, calculate_stats, statsFor,
      statsValue, queryRecords, clusterResults, successfulRecords, successLatencies,
      sortedAsc, catalogNames, run_query, List.lookup_cons, List.filterMap_cons,
      List.min?, List.max?, List.foldl])

/-- Claim C4: for every entry in the aggregator's output, p95_latency equals
the element at index ⌊0.95 · n⌋ of the ascending-sorted successful latencies
and p99_latency the element at index ⌊0.99 · n⌋, the index clamped to the last
valid index n - 1 — a clamp that can never fire, since both floors are
strictly below n. -/
theorem claim_C4 (results : List OutcomeRecord) (cluster_name : String)
    (queryNames : List String) (duration : ℚ) (q : String) (st : QueryStatistics)
    (h : (calculate_stats results cluster_name queryNames duration).lookup q
      = some st) :
    ⌊(95 : ℚ) / 100 * ((successLatencies results cluster_name q).length : ℚ)⌋₊ <
        (successLatencies results cluster_name q).length ∧
      ⌊(99 : ℚ) / 100 * ((successLatencies results cluster_name q).length : ℚ)⌋₊ <
        (successLatencies results cluster_name q).length ∧
      st.p95_latency = (sortedAsc (successLatencies results cluster_name q)).getD
        (min ⌊(95 : ℚ) / 100 * ((successLatencies results cluster_name q).length : ℚ)⌋₊
          ((successLatencies results cluster_name q).length - 1)) 0 ∧
      st.p99_latency = (sortedAsc (successLatencies results cluster_name q)).getD
        (min ⌊(99 : ℚ) / 100 * ((successLatencies results cluster_name q).length : ℚ)⌋₊
          ((successLatencies results cluster_name q).length - 1)) 0 := by
  obtain ⟨hne, rfl⟩ := lookup_eq_statsValue h
  have key : ∀ a m : ℕ, ⌊(a : ℚ) / 100 * (m : ℚ)⌋₊ = m * a / 100 := by
    intro a m
    rw [div_mul_eq_mul_div, ← Nat.cast_mul,
      show ((100 : ℚ)) = ((100 : ℕ) : ℚ) by norm_num, Nat.floor_div_nat,
      Nat.floor_natCast, Nat.mul_comm]
  have hn : 0 < (successLatencies results cluster_name q).length := by
    rw [successLatencies, List.length_map]
    exact List.length_pos.mpr hne
  set n := (successLatencies results cluster_name q).length with hnd
  have k95 : ⌊(95 : ℚ) / 100 * (n : ℚ)⌋₊ = n * 95 / 100 := by
    simpa using key 95 n
  have k99 : ⌊(99 : ℚ) / 100 * (n : ℚ)⌋₊ = n * 99 / 100 := by
    simpa using key 99 n
  refine ⟨by rw [k95]; omega, by rw [k99]; omega, ?_, ?_⟩
  · rw [k95, min_eq_left (by omega)]
    rfl
  · rw [k99, min_eq_left (by omega)]
    rfl

/-- Claim C4, witness: two successful latencies 5 and 3; the sorted sample is
[3, 5], both percentile indices are ⌊0.95·2⌋ = ⌊0.99·2⌋ = 1 < 2, and both
percentiles pick the element 5. -/
theorem claim_C4_witness :
    ⌊(95 : ℚ) / 100 *
        ((successLatencies wrecsTwo "Elasticsearch" "company-name-search").length : ℚ)⌋₊ <
      (successLatencies wrecsTwo "Elasticsearch" "company-name-search").length ∧
    ⌊(99 : ℚ) / 100 *
        ((successLatencies wrecsTwo "Elasticsearch" "company-name-search").length : ℚ)⌋₊ <
      (successLatencies wrecsTwo "Elasticsearch" "company-name-search").length ∧
    wstatTwo.p95_latency =
      (sortedAsc (successLatencies wrecsTwo "Elasticsearch" "company-name-search")).getD
        (min ⌊(95 : ℚ) / 100 *
            ((successLatencies wrecsTwo "Elasticsearch" "company-name-search").length : ℚ)⌋₊
          ((successLatencies wrecsTwo "Elasticsearch" "company-name-search").length - 1)) 0 ∧
    wstatTwo.p99_latency =
      (sortedAsc (successLatencies wrecsTwo "Elasticsearch" "company-name-search")).getD
        (min ⌊(99 : ℚ) / 100 *
            ((successLatencies wrecsTwo "Elasticsearch" "company-name-search").length : ℚ)⌋₊
          ((successLatencies wrecsTwo "Elasticsearch" "company-name-search").length - 1)) 0 :=
  claim_C4 wrecsTwo "Elasticsearch" catalogNames 20 "company-name-search" wstatTwo
    (by norm_num [wrecsTwo, wstatTwo, calculate_stats, statsFor, statsValue,
      queryRecords, clusterResults, successfulRecords, successLatencies, sortedAsc,
      catalogNames, run_query, List.lookup_cons, List.filterMap_cons, List.min?,
      List.max?, List.foldl])

/-- Claim C5: for every entry in the aggregator's output, min_latency ≤ median
(the element at index ⌊0.5 · n⌋ of the sorted latencies) ≤ p95_latency ≤
p99_latency, and p99_latency equals max_latency whenever the sample size is at
most 100 (index clamping). -/
theorem claim_C5 (results : List OutcomeRecord) (cluster_name : String)
    (queryNames : List String) (duration : ℚ) (q : String) (st : QueryStatistics)
    (h : (calculate_stats results cluster_name queryNames duration).lookup q
      = some st) :
    st.min_latency ≤ medianOf (successLatencies results cluster_name q) ∧
      medianOf (successLatencies results cluster_name q) ≤ st.p95_latency ∧
      st.p95_latency ≤ st.p99_latency ∧
      ((successLatencies results cluster_name q).length ≤ 100 →
        st.p99_latency = st.max_latency) := by
  obtain ⟨hne, rfl⟩ := lookup_eq_statsValue h
  have hn : 0 < (successLatencies results cluster_name q).length := by
    rw [successLatencies, List.length_map]
    exact List.length_pos.mpr hne
  set l := successLatencies results cluster_name q with hld
  set n := l.length with hnd
  have hp95 : (statsValue results cluster_name duration q).p95_latency =
      (sortedAsc l).getD (n * 95 / 100) 0 := rfl
  have hp99 : (statsValue results cluster_name duration q).p99_latency =
      (sortedAsc l).getD (n * 99 / 100) 0 := rfl
  have hmin : (statsValue results cluster_name duration q).min_latency =
      l.min?.getD 0 := rfl
  have hmax : (statsValue results cluster_name duration q).max_latency =
      l.max?.getD 0 := rfl
  have hmed : medianOf l = (sortedAsc l).getD (n / 2) 0 := rfl
  refine ⟨?_, ?_, ?_, ?_⟩
  · rw [hmin, hmed]
    exact min?_getD_le_of_mem (sortedAsc_getD_mem (by omega))
  · rw [hmed, hp95]
    exact sortedAsc_getD_mono (by omega) (by omega)
  · rw [hp95, hp99]
    exact sortedAsc_getD_mono (by omega) (by omega)
  · intro h100
    rw [hp99, hmax, max?_getD_eq_sortedAsc_last (List.length_pos.mp hn),
      show n * 99 / 100 = n - 1 by omega]

/-- Claim C5, witness: with sorted sample [3, 5] (n = 2 ≤ 100) the chain reads
3 ≤ 5 ≤ 5 ≤ 5 and p99 = max = 5. -/
theorem claim_C5_witness :
    wstatTwo.min_latency ≤
        medianOf (successLatencies wrecsTwo "Elasticsearch" "company-name-search") ∧
      medianOf (successLatencies wrecsTwo "Elasticsearch" "company-name-search") ≤
        wstatTwo.p95_latency ∧
      wstatTwo.p95_latency ≤ wstatTwo.p99_latency ∧
      ((successLatencies wrecsTwo "Elasticsearch" "company-name-search").length ≤ 100 →
        wstatTwo.p99_latency = wstatTwo.max_latency) :=
  claim_C5 wrecsTwo "Elasticsearch" catalogNames 20 "company-name-search" wstatTwo
    (by norm_num [wrecsTwo, wstatTwo, calculate_stats, statsFor, statsValue,
      queryRecords, clusterResults, successfulRecords, successLatencies, sortedAsc,
      catalogNames, run_query, List.lookup_cons, List.filterMap_cons, List.min?,
      List.max?, List.foldl])

/-- Claim C6: the report's summary rows are the sums of the per-query request
counts, the unweighted mean of the per-query error rates, and the sum of the
per-query throughputs; on a concrete statistics map the unweighted mean
(100/3) provably differs from a global error rate recomputed from the raw
counts (50), so the summary is not such a recomputation. -/
theorem claim_C6 :
    (∀ stats : List (String × QueryStatistics),
        summaryTotalRequests stats =
            (stats.map (fun p => p.2.total_requests)).sum ∧
          summarySuccessfulRequests stats =
            (stats.map (fun p => p.2.successful_requests)).sum ∧
          summaryOverallErrorRate stats =
            (stats.map (fun p => p.2.error_rate)).sum / (stats.length : ℚ) ∧
          summaryAvgRequestsPerSecond stats =
            (stats.map (fun p => p.2.requests_per_second)).sum) ∧
      summaryOverallErrorRate wstatsSummary ≠
        globalErrorRateFromCounts wstatsSummary := by
  refine ⟨fun stats => ⟨rfl, rfl, rfl, rfl⟩, ?_⟩
  norm_num [summaryOverallErrorRate, globalErrorRateFromCounts,
    summaryTotalRequests, summarySuccessfulRequests, wstatsSummary]

/-- Claim C3, counterexample: "company-name-search" is present in the
OpenSearch statistics (hence in the union of the two key sets), yet the
report's metrics loop emits no row at all for it, because the Elasticsearch
side is missing: both the `if ess_metrics:` and the
`if aws_metrics and ess_metrics:` guards fail. -/
theorem claim_C3_counterexample :
    "company-name-search" ∈ unionKeys [] [("company-name-search", wstatReport)] ∧
      queryMetricRows [] [("company-name-search", wstatReport)] = [] := by
  constructor
  · simp [unionKeys]
  · simp [queryMetricRows, unionKeys, rowsForQuery]

/-- Claim C3 (amended): comparison rows with directional indicators are
emitted only for query names present in both backends' statistics; a query
present only in the Elasticsearch map yields its rows with neutral markers, a
query present only in the OpenSearch map yields no rows at all.  The
directional indicator itself marks the backend with the smaller value
favorable for lower-is-better metrics, the backend with the larger value
favorable for higher-is-better metrics, and is neutral on equal values (green
standing for "Elasticsearch favorable", red for "OpenSearch favorable"). -/
theorem claim_C3_amended :
    (∀ ev ov : ℚ,
        (get_color_code ev ov true = Indicator.green ↔ ev < ov) ∧
          (get_color_code ev ov true = Indicator.red ↔ ov < ev) ∧
          (get_color_code ev ov true = Indicator.neutral ↔ ev = ov) ∧
          (get_color_code ev ov false = Indicator.green ↔ ov < ev) ∧
          (get_color_code ev ov false = Indicator.red ↔ ev < ov) ∧
          (get_color_code ev ov false = Indicator.neutral ↔ ev = ov)) ∧
      (∀ (ess aws : List (String × QueryStatistics)) (q : String),
          ess.lookup q = none → rowsForQuery ess aws q = []) ∧
      (∀ (ess aws : List (String × QueryStatistics)) (q : String)
          (em : QueryStatistics), ess.lookup q = some em → aws.lookup q = none →
          rowsForQuery ess aws q = essRowsFor q em ∧
            ∀ r ∈ essRowsFor q em, r.status = Indicator.neutral) ∧
      (∀ (ess aws : List (String × QueryStatistics)) (q : String)
          (em am : QueryStatistics), ess.lookup q = some em →
          aws.lookup q = some am →
          rowsForQuery ess aws q = essRowsFor q em ++ awsRowsFor q em am) := by
  refine ⟨?_, ?_, ?_, ?_⟩
  · intro ev ov
    rcases lt_trichotomy ev ov with h | h | h
    · simp [get_color_code, h, lt_asymm h, ne_of_lt h]
    · subst h
      simp [get_color_code, lt_irrefl]
    · simp [get_color_code, h, lt_asymm h, (ne_of_lt h).symm]
  · intro ess aws q hq
    cases haws : aws.lookup q <;> simp [rowsForQuery, hq, haws]
  · intro ess aws q em h1 h2
    refine ⟨by simp [rowsForQuery, h1, h2], ?_⟩
    intro r hr
    simp only [essRowsFor, List.mem_cons, List.not_mem_nil, or_false] at hr
    rcases hr with rfl | rfl | rfl | rfl | rfl | rfl | rfl <;> rfl
  · intro ess aws q em am h1 h2
    simp [rowsForQuery, h1, h2]

/-- Claim C3, witness: the amended theorem instantiated — a strict comparison
colored green, an OpenSearch-only query yielding no rows, an
Elasticsearch-only query yielding only its neutral rows, and a query present
on both sides yielding the full colored row block. -/
theorem claim_C3_witness :
    get_color_code 1 2 true = Indicator.green ∧
      rowsForQuery [] [("company-name-search", wstatReport)]
          "company-name-search" = [] ∧
      rowsForQuery [("company-name-search", wstatReport)] []
          "company-name-search" = essRowsFor "company-name-search" wstatReport ∧
      rowsForQuery [("company-name-search", wstatReport)]
          [("company-name-search", wstatTwo)] "company-name-search" =
        essRowsFor "company-name-search" wstatReport ++
          awsRowsFor "company-name-search" wstatReport wstatTwo :=
  ⟨(claim_C3_amended.1 1 2).1.mpr (by norm_num),
   claim_C3_amended.2.1 [] [("company-name-search", wstatReport)]
     "company-name-search" rfl,
   (claim_C3_amended.2.2.1 [("company-name-search", wstatReport)] []
     "company-name-search" wstatReport (by simp) rfl).1,
   claim_C3_amended.2.2.2 [("company-name-search", wstatReport)]
     [("company-name-search", wstatTwo)] "company-name-search" wstatReport
     wstatTwo (by simp) (by simp)⟩

end ElasticBench
